import Mathlib

/-!
Verification of the EyeTracking application's core numeric and state logic.

Each definition is a shallow embedding of a function of the repository:
JavaScript numbers are modelled as rationals (`ℚ`), timestamps as
integers (milliseconds), `Number.POSITIVE_INFINITY` as the `none` case of
an `Option ℚ`, and mutable module state as explicit state passing.
-/

namespace EyeTracking

/-- Embedding of `transformOpenness` from
`src/services/trackingTransmissionService.ts`.  The four handles
`opennessConfig[0] .. opennessConfig[3]` are passed as `h0 h1 h2 h3`. -/
def transformOpenness (value h0 h1 h2 h3 : ℚ) : ℚ :=
  if value < h0 then 0
  else if value < h1 then ((value - h0) / (h1 - h0)) * (3/4)
  else if value < h2 then 3/4
  else if value < h3 then 3/4 + ((value - h2) / (h3 - h2)) * (1/4)
  else 1

lemma transformOpenness_nonneg (value h0 h1 h2 h3 : ℚ) :
    0 ≤ transformOpenness value h0 h1 h2 h3 := by
  unfold transformOpenness
  by_cases hb0 : value < h0
  · simp [hb0]
  · by_cases hb1 : value < h1
    · have hden : 0 < h1 - h0 := by
        have := not_lt.mp hb0; linarith
      have hnum : 0 ≤ value - h0 := by
        have := not_lt.mp hb0; linarith
      have : 0 ≤ (value - h0) / (h1 - h0) := div_nonneg hnum (le_of_lt hden)
      simp only [hb0, if_false, hb1, if_true]
      positivity
    · by_cases hb2 : value < h2
      · norm_num [hb0, hb1, hb2]
      · by_cases hb3 : value < h3
        · have hden : 0 < h3 - h2 := by
            have := not_lt.mp hb2; linarith
          have hnum : 0 ≤ value - h2 := by
            have := not_lt.mp hb2; linarith
          have hq : 0 ≤ (value - h2) / (h3 - h2) := div_nonneg hnum (le_of_lt hden)
          simp only [hb0, if_false, hb1, hb2, hb3, if_true]
          positivity
        · simp [hb0, hb1, hb2, hb3]

lemma transformOpenness_le_one (value h0 h1 h2 h3 : ℚ) :
    transformOpenness value h0 h1 h2 h3 ≤ 1 := by
  unfold transformOpenness
  by_cases hb0 : value < h0
  · simp [hb0]
  · by_cases hb1 : value < h1
    · have hden : 0 < h1 - h0 := by
        have := not_lt.mp hb0; linarith
      have hq : (value - h0) / (h1 - h0) ≤ 1 :=
        (div_le_one hden).mpr (by linarith)
      simp only [hb0, if_false, hb1, if_true]
      nlinarith
    · by_cases hb2 : value < h2
      · norm_num [hb0, hb1, hb2]
      · by_cases hb3 : value < h3
        · have hden : 0 < h3 - h2 := by
            have := not_lt.mp hb2; linarith
          have hq : (value - h2) / (h3 - h2) ≤ 1 :=
            (div_le_one hden).mpr (by linarith)
          simp only [hb0, if_false, hb1, hb2, hb3, if_true]
          nlinarith
        · simp [hb0, hb1, hb2, hb3]

/-- The low ramp stays strictly below the plateau value `3/4`. -/
lemma transformOpenness_lowRamp_lt (value h0 h1 : ℚ)
    (hge : h0 ≤ value) (hlt : value < h1) :
    ((value - h0) / (h1 - h0)) * (3/4) ≤ 3/4 := by
  have hden : 0 < h1 - h0 := by linarith
  have hq : (value - h0) / (h1 - h0) ≤ 1 := (div_le_one hden).mpr (by linarith)
  nlinarith

/-- The high ramp stays at or above the plateau value `3/4`. -/
lemma transformOpenness_highRamp_ge (value h2 h3 : ℚ)
    (hge : h2 ≤ value) (hlt : value < h3) :
    3/4 ≤ 3/4 + ((value - h2) / (h3 - h2)) * (1/4) := by
  have hden : 0 < h3 - h2 := by linarith
  have hq : 0 ≤ (value - h2) / (h3 - h2) := div_nonneg (by linarith) (le_of_lt hden)
  nlinarith

/-- Values below `h2` map to at most the plateau value `3/4`. -/
lemma transformOpenness_le_plateau (value h0 h1 h2 h3 : ℚ)
    (hlt : value < h2) :
    transformOpenness value h0 h1 h2 h3 ≤ 3/4 := by
  unfold transformOpenness
  by_cases hb0 : value < h0
  · norm_num [hb0]
  · by_cases hb1 : value < h1
    · simp only [hb0, if_false, hb1, if_true]
      exact transformOpenness_lowRamp_lt value h0 h1 (not_lt.mp hb0) hb1
    · simp [hb0, hb1, hlt]

/-- Values at or above `h2` are at least `3/4` (when `h0 ≤ h1 ≤ h2`). -/
lemma transformOpenness_ge_plateau (value h0 h1 h2 h3 : ℚ)
    (H01 : h0 ≤ h1) (H12 : h1 ≤ h2) (hge : h2 ≤ value) :
    3/4 ≤ transformOpenness value h0 h1 h2 h3 := by
  unfold transformOpenness
  have hb1 : ¬ value < h1 := not_lt.mpr (le_trans H12 hge)
  have hb2 : ¬ value < h2 := not_lt.mpr hge
  have hb0 : ¬ value < h0 := not_lt.mpr (le_trans H01 (le_trans H12 hge))
  by_cases hb3 : value < h3
  · simp only [hb0, if_false, hb1, hb2, hb3, if_true]
    exact transformOpenness_highRamp_ge value h2 h3 hge hb3
  · norm_num [hb0, hb1, hb2, hb3]

/-- The openness transform is monotone non-decreasing when the four handles
are in non-decreasing order. -/
lemma transformOpenness_mono (h0 h1 h2 h3 : ℚ)
    (H01 : h0 ≤ h1) (H12 : h1 ≤ h2) (H23 : h2 ≤ h3)
    (v w : ℚ) (hvw : v ≤ w) :
    transformOpenness v h0 h1 h2 h3 ≤ transformOpenness w h0 h1 h2 h3 := by
  by_cases hw0 : w < h0
  · have hv0 : v < h0 := lt_of_le_of_lt hvw hw0
    unfold transformOpenness
    simp [hv0, hw0]
  · by_cases hw1 : w < h1
    · by_cases hv0 : v < h0
      · have hz : transformOpenness v h0 h1 h2 h3 = 0 := by
          unfold transformOpenness; simp [hv0]
        rw [hz]
        exact transformOpenness_nonneg w h0 h1 h2 h3
      · have hv1 : v < h1 := lt_of_le_of_lt hvw hw1
        have hden : 0 < h1 - h0 := by
          have := not_lt.mp hv0; linarith
        unfold transformOpenness
        simp only [hv0, hw0, if_false, hv1, hw1, if_true]
        have hdiv : (v - h0) / (h1 - h0) ≤ (w - h0) / (h1 - h0) :=
          (div_le_div_right hden).mpr (by linarith)
        nlinarith
    · by_cases hw2 : w < h2
      · have hp : transformOpenness w h0 h1 h2 h3 = 3/4 := by
          unfold transformOpenness; simp [hw0, hw1, hw2]
        rw [hp]
        exact transformOpenness_le_plateau v h0 h1 h2 h3 (lt_of_le_of_lt hvw hw2)
      · by_cases hw3 : w < h3
        · by_cases hv2 : v < h2
          · calc transformOpenness v h0 h1 h2 h3
                ≤ 3/4 := transformOpenness_le_plateau v h0 h1 h2 h3 hv2
              _ ≤ transformOpenness w h0 h1 h2 h3 :=
                  transformOpenness_ge_plateau w h0 h1 h2 h3 H01 H12 (not_lt.mp hw2)
          · have hv3 : v < h3 := lt_of_le_of_lt hvw hw3
            have hv1 : ¬ v < h1 := not_lt.mpr (le_trans H12 (not_lt.mp hv2))
            have hv0 : ¬ v < h0 :=
              not_lt.mpr (le_trans H01 (le_trans H12 (not_lt.mp hv2)))
            have hden : 0 < h3 - h2 := by
              have := not_lt.mp hv2; linarith
            unfold transformOpenness
            simp only [hv0, hw0, hv1, hw1, hv2, hw2, if_false, hv3, hw3, if_true]
            have hdiv : (v - h2) / (h3 - h2) ≤ (w - h2) / (h3 - h2) :=
              (div_le_div_right hden).mpr (by linarith)
            nlinarith
        · have ho : transformOpenness w h0 h1 h2 h3 = 1 := by
            have hw2' : ¬ w < h2 := hw2
            have hw1' : ¬ w < h1 := hw1
            have hw0' : ¬ w < h0 := hw0
            unfold transformOpenness
            simp [hw0', hw1', hw2', hw3]
          rw [ho]
          exact transformOpenness_le_one v h0 h1 h2 h3

/-- C2 (counterexample): with handles `(0, 1, 2, 2)` — which satisfy
`h0 ≤ h1 ≤ h2 ≤ h3` — the transform at `v = h2 = 2` returns `1`,
not `0.75` as the claim demands. -/
theorem transformOpenness_plateau_boundary_counterexample :
    ((0:ℚ) ≤ 1 ∧ (1:ℚ) ≤ 2 ∧ (2:ℚ) ≤ 2) ∧
    transformOpenness 2 0 1 2 2 ≠ 3/4 := by
  constructor
  · norm_num
  · norm_num [transformOpenness]

/-- C2 (amended): for handles `h0 ≤ h1 ≤ h2 ≤ h3` the openness transform is
`0` below `h0`, the linear ramp `0 → 0.75` on `[h0, h1)`, flat `0.75` on
`[h1, h2)`, the linear ramp `0.75 → 1` on `[h2, h3)`, `1` at and above `h3`,
and monotone non-decreasing everywhere; the point values
`transform h1 = 0.75` and `transform h2 = 0.75` hold provided `h2 < h3`
(when `h2 = h3` the transform returns `1` at `h2`). -/
theorem transformOpenness_spec (h0 h1 h2 h3 : ℚ)
    (H01 : h0 ≤ h1) (H12 : h1 ≤ h2) (H23 : h2 ≤ h3) :
    (∀ v, v < h0 → transformOpenness v h0 h1 h2 h3 = 0) ∧
    (∀ v, h0 ≤ v → v < h1 →
      transformOpenness v h0 h1 h2 h3 = ((v - h0) / (h1 - h0)) * (3/4)) ∧
    (∀ v, h1 ≤ v → v < h2 → transformOpenness v h0 h1 h2 h3 = 3/4) ∧
    (h2 < h3 → transformOpenness h1 h0 h1 h2 h3 = 3/4 ∧
               transformOpenness h2 h0 h1 h2 h3 = 3/4) ∧
    (∀ v, h2 ≤ v → v < h3 →
      transformOpenness v h0 h1 h2 h3 = 3/4 + ((v - h2) / (h3 - h2)) * (1/4)) ∧
    (∀ v, h3 ≤ v → transformOpenness v h0 h1 h2 h3 = 1) ∧
    (∀ v w, v ≤ w →
      transformOpenness v h0 h1 h2 h3 ≤ transformOpenness w h0 h1 h2 h3) := by
  have ramp2 : ∀ v, h2 ≤ v → v < h3 →
      transformOpenness v h0 h1 h2 h3 = 3/4 + ((v - h2) / (h3 - h2)) * (1/4) := by
    intro v hge hlt
    have hv2 : ¬ v < h2 := not_lt.mpr hge
    have hv1 : ¬ v < h1 := not_lt.mpr (le_trans H12 hge)
    have hv0 : ¬ v < h0 := not_lt.mpr (le_trans H01 (le_trans H12 hge))
    unfold transformOpenness
    simp [hv0, hv1, hv2, hlt]
  have flat : ∀ v, h1 ≤ v → v < h2 → transformOpenness v h0 h1 h2 h3 = 3/4 := by
    intro v hge hlt
    have hv1 : ¬ v < h1 := not_lt.mpr hge
    have hv0 : ¬ v < h0 := not_lt.mpr (le_trans H01 hge)
    unfold transformOpenness
    simp [hv0, hv1, hlt]
  refine ⟨?_, ?_, flat, ?_, ramp2, ?_, transformOpenness_mono h0 h1 h2 h3 H01 H12 H23⟩
  · intro v hlt
    unfold transformOpenness
    simp [hlt]
  · intro v hge hlt
    have hv0 : ¬ v < h0 := not_lt.mpr hge
    unfold transformOpenness
    simp [hv0, hlt]
  · intro h23
    constructor
    · rcases lt_or_eq_of_le H12 with h | h
      · exact flat h1 le_rfl h
      · rw [ramp2 h1 (le_of_eq h.symm) (h ▸ h23)]
        rw [h]
        ring
    · rw [ramp2 h2 le_rfl h23]
      ring
  · intro v hge
    have hv2 : ¬ v < h2 := not_lt.mpr (le_trans H23 hge)
    have hv1 : ¬ v < h1 := not_lt.mpr (le_trans H12 (le_trans H23 hge))
    have hv0 : ¬ v < h0 :=
      not_lt.mpr (le_trans H01 (le_trans H12 (le_trans H23 hge)))
    have hv3 : ¬ v < h3 := not_lt.mpr hge
    unfold transformOpenness
    simp [hv0, hv1, hv2, hv3]

/-- Witness for C2's amended theorem at handles `(0, 1, 2, 3)`. -/
theorem transformOpenness_spec_witness :
    transformOpenness 1 0 1 2 3 = 3/4 ∧ transformOpenness 2 0 1 2 3 = 3/4 :=
  (transformOpenness_spec 0 1 2 3 (by norm_num) (by norm_num)
    (by norm_num)).2.2.2.1 (by norm_num)

/-! ### AdaptiveKalmanFilter (`src/utilities/adaptiveKalmanFilter.ts`) -/

/-- State and parameters of an `AdaptiveKalmanFilter` instance. -/
structure AdaptiveKalmanFilter where
  stateEstimate : ℚ
  errorCovariance : ℚ
  measurementNoiseVariance : ℚ
  processNoiseSmall : ℚ
  processNoiseLarge : ℚ
  changeThreshold : ℚ
  deriving Repr, DecidableEq

namespace AdaptiveKalmanFilter

/-- `maxInterpolationFactor` field initializer (the class never changes it). -/
def maxInterpolationFactor : ℚ := 20

/-- `Math.max(0, Math.min(trust, 1))` from the start of `update`. -/
def clampedTrust (trust : ℚ) : ℚ := max 0 (min trust 1)

/-- The effective measurement noise computed inside `update`.
`none` stands for `Number.POSITIVE_INFINITY`. -/
def effectiveMeasurementNoise (f : AdaptiveKalmanFilter) (trust : ℚ) :
    Option ℚ :=
  let c := clampedTrust trust
  if c = 0 then none
  else if c < 3/4 then
    some (f.measurementNoiseVariance *
      (maxInterpolationFactor - ((maxInterpolationFactor - 1) / (3/4)) * c))
  else some f.measurementNoiseVariance

/-- Embedding of `AdaptiveKalmanFilter.update`.  Returns the posterior
state estimate together with the updated filter.  The Kalman gain
`P / (P + r)` is `0` when the effective noise is infinite (`none`), matching
IEEE arithmetic `P / (P + ∞) = 0` for finite `P`. -/
def update (f : AdaptiveKalmanFilter) (measurement : ℚ) (trust : ℚ) :
    ℚ × AdaptiveKalmanFilter :=
  let effNoise := f.effectiveMeasurementNoise trust
  let measurementDifference := |measurement - f.stateEstimate|
  let processNoise :=
    if measurementDifference > f.changeThreshold then f.processNoiseLarge
    else f.processNoiseSmall
  let predictedState := f.stateEstimate
  let predictedErrorCovariance := f.errorCovariance + processNoise
  let kalmanGain :=
    match effNoise with
    | none => 0
    | some r => predictedErrorCovariance / (predictedErrorCovariance + r)
  let newEstimate := predictedState + kalmanGain * (measurement - predictedState)
  let newCovariance := (1 - kalmanGain) * predictedErrorCovariance
  (newEstimate,
   { f with stateEstimate := newEstimate, errorCovariance := newCovariance })

end AdaptiveKalmanFilter

/-- C1: after clamping trust into `[0,1]`:
(a) clamped trust `≥ 0.75` makes the effective measurement noise equal the
configured base noise exactly;
(b) clamped trust `= 0` makes the posterior estimate equal the prior
estimate (the measurement has zero influence);
(c) clamped trust strictly between `0` and `0.75` makes the effective noise
equal the base noise times the factor linearly interpolated from `20`
(at trust `0`) down to `1` (at trust `0.75`). -/
theorem adaptiveKalmanUpdate_trust_spec (f : AdaptiveKalmanFilter)
    (measurement trust : ℚ) :
    (3/4 ≤ AdaptiveKalmanFilter.clampedTrust trust →
      f.effectiveMeasurementNoise trust = some f.measurementNoiseVariance) ∧
    (AdaptiveKalmanFilter.clampedTrust trust = 0 →
      (f.update measurement trust).1 = f.stateEstimate) ∧
    (0 < AdaptiveKalmanFilter.clampedTrust trust →
      AdaptiveKalmanFilter.clampedTrust trust < 3/4 →
      f.effectiveMeasurementNoise trust =
        some (f.measurementNoiseVariance *
          ((1 - AdaptiveKalmanFilter.clampedTrust trust / (3/4)) * 20 +
           (AdaptiveKalmanFilter.clampedTrust trust / (3/4)) * 1))) := by
  refine ⟨?_, ?_, ?_⟩
  · intro h
    have hne : AdaptiveKalmanFilter.clampedTrust trust ≠ 0 := by
      intro h0; rw [h0] at h; norm_num at h
    have hnl : ¬ AdaptiveKalmanFilter.clampedTrust trust < 3/4 := not_lt.mpr h
    unfold AdaptiveKalmanFilter.effectiveMeasurementNoise
    simp [hne, hnl]
  · intro h
    unfold AdaptiveKalmanFilter.update AdaptiveKalmanFilter.effectiveMeasurementNoise
    simp [h]
  · intro hpos hlt
    have hne : AdaptiveKalmanFilter.clampedTrust trust ≠ 0 := ne_of_gt hpos
    unfold AdaptiveKalmanFilter.effectiveMeasurementNoise
    simp only [hne, if_false, hlt, if_true, Option.some.injEq]
    unfold AdaptiveKalmanFilter.maxInterpolationFactor
    ring

/-- Witness for C1 at a concrete filter, measurement `5` and trust `0`:
the posterior equals the prior estimate `2`. -/
theorem adaptiveKalmanUpdate_trust_spec_witness :
    ((⟨2, 1, 1, 1, 10, 1⟩ : AdaptiveKalmanFilter).update 5 0).1 = 2 :=
  (adaptiveKalmanUpdate_trust_spec ⟨2, 1, 1, 1, 10, 1⟩ 5 0).2.1
    (by norm_num [AdaptiveKalmanFilter.clampedTrust])

/-! ### Blink-release hysteresis (`startTrackingTransmission`,
`src/services/trackingTransmissionService.ts`)

Per openness channel the service keeps a `lastClosedTimestamp`.  Each
transmission pass runs, with `v` the freshly transformed openness value and
`now = Date.now()`:

```text
if (v === 0) { lastClosedTimestamp = now; }
else if (now <= lastClosedTimestamp + blinkReleaseDelayMs) { v = 0; }
```
-/

/-- One blink-release pass on a channel: takes the latched closed-at
timestamp, the current time, the release delay and the transformed
openness; returns the emitted value and the new latched timestamp. -/
def blinkReleaseStep (lastClosedTimestamp now delayMs : ℤ) (v : ℚ) :
    ℚ × ℤ :=
  if v = 0 then (v, now)
  else if now ≤ lastClosedTimestamp + delayMs then (0, lastClosedTimestamp)
  else (v, lastClosedTimestamp)

/-- C3 (counterexample): a channel latched closed at `T = 0` with release
delay `100` ms still emits `0` for a nonzero transformed value `1/2`
arriving exactly at `T + delay = 100`, where the claim demands the
transformed value unmodified. -/
theorem blinkRelease_boundary_counterexample :
    (blinkReleaseStep 0 100 100 (1/2)).1 = 0 ∧
    (100 : ℤ) = 0 + 100 ∧ (1/2 : ℚ) ≠ 0 := by
  norm_num [blinkReleaseStep]

/-- C3 (amended): once a channel latched closed at time `T`, a pass at or
before `T + delay` emits `0` regardless of the raw reading, a pass strictly
after `T + delay` emits the transformed value unmodified, and a pass with a
nonzero transformed value leaves the latched timestamp at `T` (so the
window is measured from the original zero). -/
theorem blinkRelease_spec (T now delayMs : ℤ) (v : ℚ) :
    (now ≤ T + delayMs → (blinkReleaseStep T now delayMs v).1 = 0) ∧
    (T + delayMs < now → (blinkReleaseStep T now delayMs v).1 = v) ∧
    (v ≠ 0 → (blinkReleaseStep T now delayMs v).2 = T) := by
  refine ⟨?_, ?_, ?_⟩
  · intro hle
    by_cases hv : v = 0
    · simp [blinkReleaseStep, hv]
    · simp [blinkReleaseStep, hv, hle]
  · intro hgt
    have hnle : ¬ now ≤ T + delayMs := not_le.mpr hgt
    by_cases hv : v = 0
    · simp [blinkReleaseStep, hv]
    · simp [blinkReleaseStep, hv, hnle]
  · intro hv
    by_cases hle : now ≤ T + delayMs
    · simp [blinkReleaseStep, hv, hle]
    · simp [blinkReleaseStep, hv, hle]

/-- Witness for C3's amended theorem: latched at `T = 0`, delay `100`,
a pass at `now = 50` with transformed value `1` is forced to `0`. -/
theorem blinkRelease_spec_witness :
    (blinkReleaseStep 0 50 100 1).1 = 0 :=
  (blinkRelease_spec 0 50 100 1).1 (by norm_num)

/-! ### Change suppression (`src/utilities/equalityUtils.ts` and the
dispatch pattern of `startTrackingTransmission`) -/

/-- A combined `(theta1, theta2)` pair. -/
structure CombinedThetas where
  theta1 : ℚ
  theta2 : ℚ
  deriving Repr, DecidableEq

/-- Independent per-eye theta values. -/
structure IndThetas where
  leftTheta1 : ℚ
  leftTheta2 : ℚ
  rightTheta1 : ℚ
  rightTheta2 : ℚ
  deriving Repr, DecidableEq

namespace EqualityUtils

/-- `EqualityUtils.EPSILON`. -/
def EPSILON : ℚ := 1/1000

/-- `EqualityUtils.isEqualCombinedThetas`. -/
def isEqualCombinedThetas (a b : CombinedThetas) : Prop :=
  |a.theta1 - b.theta1| < EPSILON ∧ |a.theta2 - b.theta2| < EPSILON

instance (a b : CombinedThetas) : Decidable (isEqualCombinedThetas a b) :=
  And.decidable

/-- `EqualityUtils.isEqualIndThetas`. -/
def isEqualIndThetas (a b : IndThetas) : Prop :=
  |a.leftTheta1 - b.leftTheta1| < EPSILON ∧
  |a.leftTheta2 - b.leftTheta2| < EPSILON ∧
  |a.rightTheta1 - b.rightTheta1| < EPSILON ∧
  |a.rightTheta2 - b.rightTheta2| < EPSILON

instance (a b : IndThetas) : Decidable (isEqualIndThetas a b) :=
  And.decidable

end EqualityUtils

/-- One dispatch decision on the combined path:
`if (!previous || !isEqualCombinedThetas(incoming, previous)) { previous =
incoming; send(...) }`.  Returns whether a dispatch happened and the new
cached previous value. -/
def combinedDispatchStep :
    Option CombinedThetas → CombinedThetas → Bool × Option CombinedThetas
  | none, incoming => (true, some incoming)
  | some prev, incoming =>
      if EqualityUtils.isEqualCombinedThetas incoming prev then
        (false, some prev)
      else (true, some incoming)

/-- One dispatch decision on the independent path. -/
def independentDispatchStep :
    Option IndThetas → IndThetas → Bool × Option IndThetas
  | none, incoming => (true, some incoming)
  | some prev, incoming =>
      if EqualityUtils.isEqualIndThetas incoming prev then
        (false, some prev)
      else (true, some incoming)

/-- C4: with `p` the last dispatched value of the channel, a new combined
computation `v` dispatches iff some component moved by at least `0.001`;
when suppressed, the cache keeps `p`, so the next computation `u` is still
compared against the last dispatched value, not the last computed one.
The same holds on the independent path (`q`, `w`). -/
theorem dispatchSuppression_spec (p v u : CombinedThetas) (q w : IndThetas) :
    ((|v.theta1 - p.theta1| < 1/1000 ∧ |v.theta2 - p.theta2| < 1/1000) →
      (combinedDispatchStep (some p) v).1 = false) ∧
    ((1/1000 ≤ |v.theta1 - p.theta1| ∨ 1/1000 ≤ |v.theta2 - p.theta2|) →
      (combinedDispatchStep (some p) v).1 = true) ∧
    ((combinedDispatchStep (some p) v).1 = false →
      combinedDispatchStep ((combinedDispatchStep (some p) v).2) u =
        combinedDispatchStep (some p) u) ∧
    ((|w.leftTheta1 - q.leftTheta1| < 1/1000 ∧
      |w.leftTheta2 - q.leftTheta2| < 1/1000 ∧
      |w.rightTheta1 - q.rightTheta1| < 1/1000 ∧
      |w.rightTheta2 - q.rightTheta2| < 1/1000) →
      (independentDispatchStep (some q) w).1 = false) ∧
    ((1/1000 ≤ |w.leftTheta1 - q.leftTheta1| ∨
      1/1000 ≤ |w.leftTheta2 - q.leftTheta2| ∨
      1/1000 ≤ |w.rightTheta1 - q.rightTheta1| ∨
      1/1000 ≤ |w.rightTheta2 - q.rightTheta2|) →
      (independentDispatchStep (some q) w).1 = true) := by
  refine ⟨?_, ?_, ?_, ?_, ?_⟩
  · intro h
    have heq : EqualityUtils.isEqualCombinedThetas v p := by
      unfold EqualityUtils.isEqualCombinedThetas EqualityUtils.EPSILON
      exact h
    simp [combinedDispatchStep, heq]
  · intro h
    have hne : ¬ EqualityUtils.isEqualCombinedThetas v p := by
      unfold EqualityUtils.isEqualCombinedThetas EqualityUtils.EPSILON
      rintro ⟨h1, h2⟩
      rcases h with h | h <;> linarith
    simp [combinedDispatchStep, hne]
  · intro h
    by_cases heq : EqualityUtils.isEqualCombinedThetas v p
    · simp [combinedDispatchStep, heq]
    · simp [combinedDispatchStep, heq] at h
  · intro h
    have heq : EqualityUtils.isEqualIndThetas w q := by
      unfold EqualityUtils.isEqualIndThetas EqualityUtils.EPSILON
      exact h
    simp [independentDispatchStep, heq]
  · intro h
    have hne : ¬ EqualityUtils.isEqualIndThetas w q := by
      unfold EqualityUtils.isEqualIndThetas EqualityUtils.EPSILON
      rintro ⟨h1, h2, h3, h4⟩
      rcases h with h | h | h | h <;> linarith
    simp [independentDispatchStep, hne]

/-- Witness for C4: a move of `0.5` in `theta1` from the last dispatched
combined value dispatches. -/
theorem dispatchSuppression_spec_witness :
    (combinedDispatchStep (some ⟨0, 0⟩) ⟨1/2, 0⟩).1 = true :=
  (dispatchSuppression_spec ⟨0, 0⟩ ⟨1/2, 0⟩ ⟨0, 0⟩ ⟨0, 0, 0, 0⟩
    ⟨0, 0, 0, 0⟩).2.1 (Or.inl (by rw [abs_of_nonneg] <;> norm_num))

/-! ### Eye selection (`src/utilities/eyeSelectionUtils.ts`) -/

/-- The theta fields of `state.status.tracking` read by the selection
utilities: the combined pair and the two per-eye pairs. -/
structure TrackingThetas where
  theta1 : ℚ
  theta2 : ℚ
  leftTheta1 : ℚ
  leftTheta2 : ℚ
  rightTheta1 : ℚ
  rightTheta2 : ℚ
  deriving Repr, DecidableEq

namespace EyeSelectionUtils

/-- Embedding of `EyeSelectionUtils.chooseIndependentEyeThetas`; the two
booleans are `status === 'online'` for the left and right eye. -/
def chooseIndependentEyeThetas (leftOnline rightOnline : Bool)
    (tracking : TrackingThetas) : IndThetas :=
  if leftOnline && rightOnline then
    if tracking.leftTheta2 - tracking.rightTheta2 < 0 then
      { leftTheta1 := tracking.theta1, leftTheta2 := tracking.theta2,
        rightTheta1 := tracking.theta1, rightTheta2 := tracking.theta2 }
    else
      { leftTheta1 := tracking.theta1, leftTheta2 := tracking.leftTheta2,
        rightTheta1 := tracking.theta1, rightTheta2 := tracking.rightTheta2 }
  else if leftOnline then
    { leftTheta1 := tracking.leftTheta1, leftTheta2 := tracking.leftTheta2,
      rightTheta1 := tracking.leftTheta1, rightTheta2 := tracking.leftTheta2 }
  else if rightOnline then
    { leftTheta1 := tracking.rightTheta1, leftTheta2 := tracking.rightTheta2,
      rightTheta1 := tracking.rightTheta1, rightTheta2 := tracking.rightTheta2 }
  else
    { leftTheta1 := 0, leftTheta2 := 0, rightTheta1 := 0, rightTheta2 := 0 }

end EyeSelectionUtils

/-- C5: with both eyes online and `leftTheta2 − rightTheta2 < 0`
(the divergent case) the independent query returns the combined pair
duplicated for both eyes. -/
theorem chooseIndependentEyeThetas_divergent_fallback (t : TrackingThetas)
    (h : t.leftTheta2 - t.rightTheta2 < 0) :
    EyeSelectionUtils.chooseIndependentEyeThetas true true t =
      { leftTheta1 := t.theta1, leftTheta2 := t.theta2,
        rightTheta1 := t.theta1, rightTheta2 := t.theta2 } := by
  simp [EyeSelectionUtils.chooseIndependentEyeThetas, h]

/-- Witness for C5 at a concrete divergent state. -/
theorem chooseIndependentEyeThetas_divergent_fallback_witness :
    EyeSelectionUtils.chooseIndependentEyeThetas true true
      ⟨1, 2, 3, 4, 5, 6⟩ =
      { leftTheta1 := 1, leftTheta2 := 2, rightTheta1 := 1, rightTheta2 := 2 } :=
  chooseIndependentEyeThetas_divergent_fallback ⟨1, 2, 3, 4, 5, 6⟩ (by norm_num)

/-- C10: with both eyes online the independent query always reports the
combined `theta1` for both eyes — also in the convergent case
`leftTheta2 − rightTheta2 ≥ 0`, where only the per-eye `theta2` values are
passed through. -/
theorem chooseIndependentEyeThetas_convergent_theta1 (t : TrackingThetas) :
    ((EyeSelectionUtils.chooseIndependentEyeThetas true true t).leftTheta1 =
        t.theta1 ∧
     (EyeSelectionUtils.chooseIndependentEyeThetas true true t).rightTheta1 =
        t.theta1) ∧
    (0 ≤ t.leftTheta2 - t.rightTheta2 →
      (EyeSelectionUtils.chooseIndependentEyeThetas true true t).leftTheta2 =
        t.leftTheta2 ∧
      (EyeSelectionUtils.chooseIndependentEyeThetas true true t).rightTheta2 =
        t.rightTheta2) := by
  by_cases h : t.leftTheta2 - t.rightTheta2 < 0
  · refine ⟨?_, ?_⟩
    · simp [EyeSelectionUtils.chooseIndependentEyeThetas, h]
    · intro hge
      exact absurd h (not_lt.mpr hge)
  · refine ⟨?_, ?_⟩
    · simp [EyeSelectionUtils.chooseIndependentEyeThetas, h]
    · intro _
      simp [EyeSelectionUtils.chooseIndependentEyeThetas, h]

/-- Witness for C10 at a concrete convergent state: both reported `theta1`
values equal the combined `theta1` and the `theta2` values are per-eye. -/
theorem chooseIndependentEyeThetas_convergent_theta1_witness :
    ((EyeSelectionUtils.chooseIndependentEyeThetas true true
        ⟨1, 2, 3, 7, 5, 6⟩).leftTheta1 = 1 ∧
     (EyeSelectionUtils.chooseIndependentEyeThetas true true
        ⟨1, 2, 3, 7, 5, 6⟩).rightTheta1 = 1) ∧
    ((EyeSelectionUtils.chooseIndependentEyeThetas true true
        ⟨1, 2, 3, 7, 5, 6⟩).leftTheta2 = 7 ∧
     (EyeSelectionUtils.chooseIndependentEyeThetas true true
        ⟨1, 2, 3, 7, 5, 6⟩).rightTheta2 = 6) :=
  ⟨(chooseIndependentEyeThetas_convergent_theta1 ⟨1, 2, 3, 7, 5, 6⟩).1,
   (chooseIndependentEyeThetas_convergent_theta1 ⟨1, 2, 3, 7, 5, 6⟩).2
     (by norm_num)⟩

/-! ### KalmanFilterManager (`src/utilities/KalmanFilterManager.ts`) -/

/-- The five configuration fields snapshotted as `KalmanConfig`. -/
structure KalmanConfig where
  measurementNoise : ℚ
  kalmanQLow : ℚ
  kalmanQHigh : ℚ
  kalmanThreshold : ℚ
  kalmanThresholdOpenness : ℚ
  deriving Repr, DecidableEq

/-- Per-model entry of `filterMap`. -/
structure ModelFilters where
  filter1 : Option AdaptiveKalmanFilter
  filter2 : Option AdaptiveKalmanFilter
  lastKalmanConfig : Option KalmanConfig
  deriving Repr, DecidableEq

/-- Per-model entry of `opennessFilterMap`. -/
structure OpennessFilter where
  filter : Option AdaptiveKalmanFilter
  lastKalmanConfig : Option KalmanConfig
  deriving Repr, DecidableEq

namespace KalmanFilterManager

/-- The `configChanged` test inside `filterTwoAngles`: it compares only the
four angle parameters (it does not look at `kalmanThresholdOpenness`). -/
def angleConfigChanged (config : KalmanConfig) :
    Option KalmanConfig → Bool
  | none => true
  | some last =>
      decide (config.measurementNoise ≠ last.measurementNoise) ||
      decide (config.kalmanQLow ≠ last.kalmanQLow) ||
      decide (config.kalmanQHigh ≠ last.kalmanQHigh) ||
      decide (config.kalmanThreshold ≠ last.kalmanThreshold)

/-- The `configChanged` test inside `filterOpenness`: all five parameters. -/
def opennessConfigChanged (config : KalmanConfig) :
    Option KalmanConfig → Bool
  | none => true
  | some last =>
      decide (config.measurementNoise ≠ last.measurementNoise) ||
      decide (config.kalmanQLow ≠ last.kalmanQLow) ||
      decide (config.kalmanQHigh ≠ last.kalmanQHigh) ||
      decide (config.kalmanThreshold ≠ last.kalmanThreshold) ||
      decide (config.kalmanThresholdOpenness ≠ last.kalmanThresholdOpenness)

/-- `filtersUninitialized || configChanged` of `filterTwoAngles`. -/
def angleReinitNeeded (entry : ModelFilters) (config : KalmanConfig) : Bool :=
  entry.filter1.isNone || entry.filter2.isNone ||
  angleConfigChanged config entry.lastKalmanConfig

/-- `!filter || configChanged` of `filterOpenness`. -/
def opennessReinitNeeded (entry : OpennessFilter) (config : KalmanConfig) :
    Bool :=
  entry.filter.isNone || opennessConfigChanged config entry.lastKalmanConfig

/-- Embedding of `filterTwoAngles` restricted to one `modelId` entry:
returns the two filtered angles and the new map entry. -/
def filterTwoAnglesStep (entry : ModelFilters) (angle1 angle2 : ℚ)
    (config : KalmanConfig) (trustworthiness : ℚ) :
    (ℚ × ℚ) × ModelFilters :=
  if angleReinitNeeded entry config then
    let newFilter1 : AdaptiveKalmanFilter :=
      ⟨angle1, 1, config.measurementNoise, config.kalmanQLow,
       config.kalmanQHigh, config.kalmanThreshold⟩
    let newFilter2 : AdaptiveKalmanFilter :=
      ⟨angle2, 1, config.measurementNoise, config.kalmanQLow,
       config.kalmanQHigh, config.kalmanThreshold⟩
    let r1 := newFilter1.update angle1 trustworthiness
    let r2 := newFilter2.update angle2 trustworthiness
    ((r1.1, r2.1),
     { filter1 := some r1.2, filter2 := some r2.2,
       lastKalmanConfig := some
         { measurementNoise := config.measurementNoise,
           kalmanQLow := config.kalmanQLow,
           kalmanQHigh := config.kalmanQHigh,
           kalmanThreshold := config.kalmanThreshold,
           kalmanThresholdOpenness := config.kalmanThresholdOpenness } })
  else
    match entry.filter1, entry.filter2 with
    | some f1, some f2 =>
        let r1 := f1.update angle1 trustworthiness
        let r2 := f2.update angle2 trustworthiness
        ((r1.1, r2.1),
         { entry with filter1 := some r1.2, filter2 := some r2.2 })
    | _, _ =>
        -- unreachable: an uninitialized filter forces the reinit branch
        ((angle1, angle2), entry)

/-- Embedding of `filterOpenness` restricted to one `modelId` entry. -/
def filterOpennessStep (entry : OpennessFilter) (openness : ℚ)
    (config : KalmanConfig) : ℚ × OpennessFilter :=
  if opennessReinitNeeded entry config then
    let newFilter : AdaptiveKalmanFilter :=
      ⟨openness, 1, config.measurementNoise, config.kalmanQLow,
       config.kalmanQHigh, config.kalmanThresholdOpenness⟩
    let r := newFilter.update openness 1
    (r.1,
     { filter := some r.2,
       lastKalmanConfig := some
         { measurementNoise := config.measurementNoise,
           kalmanQLow := config.kalmanQLow,
           kalmanQHigh := config.kalmanQHigh,
           kalmanThreshold := config.kalmanThreshold,
           kalmanThresholdOpenness := config.kalmanThresholdOpenness } })
  else
    match entry.filter with
    | some f =>
        let r := f.update openness 1
        (r.1, { entry with filter := some r.2 })
    | none =>
        -- unreachable: a missing filter forces the reinit branch
        (openness, entry)

end KalmanFilterManager

/-- C6 (counterexample): an angle-filter entry whose snapshot differs from
the current configuration only in `kalmanThresholdOpenness` is NOT
discarded: `filterTwoAngles` keeps the old snapshot (and keeps evolving the
old filter state) although one of the five governing parameters changed. -/
theorem angleFilterConfig_counterexample :
    (KalmanConfig.kalmanThresholdOpenness ⟨1, 1, 2, 3, 5⟩ ≠
      KalmanConfig.kalmanThresholdOpenness ⟨1, 1, 2, 3, 4⟩) ∧
    (KalmanFilterManager.filterTwoAnglesStep
        ⟨some ⟨9, 2, 1, 1, 2, 3⟩, some ⟨9, 2, 1, 1, 2, 3⟩, some ⟨1, 1, 2, 3, 4⟩⟩
        0 0 ⟨1, 1, 2, 3, 5⟩ 1).2.lastKalmanConfig = some ⟨1, 1, 2, 3, 4⟩ ∧
    (KalmanFilterManager.filterTwoAnglesStep
        ⟨some ⟨9, 2, 1, 1, 2, 3⟩, some ⟨9, 2, 1, 1, 2, 3⟩, some ⟨1, 1, 2, 3, 4⟩⟩
        0 0 ⟨1, 1, 2, 3, 5⟩ 1).2.filter1 =
      some ((AdaptiveKalmanFilter.update ⟨9, 2, 1, 1, 2, 3⟩ 0 1).2) := by
  refine ⟨by norm_num, ?_, ?_⟩ <;>
    simp [KalmanFilterManager.filterTwoAnglesStep,
      KalmanFilterManager.angleReinitNeeded,
      KalmanFilterManager.angleConfigChanged]

/-- C6 (amended): with an initialized entry and snapshot, the angle-filter
pair is discarded and recreated from the current configuration iff one of
the FOUR angle parameters (base noise, Q-low, Q-high, angle threshold)
differs from the snapshot — a change only in the openness threshold leaves
it untouched; the openness filter is discarded and recreated iff any of the
FIVE parameters differs.  Otherwise the existing filter state is retained
and evolved. -/
theorem kalmanFilterManager_reinit_spec
    (entry : ModelFilters) (f1 f2 : AdaptiveKalmanFilter)
    (oe : OpennessFilter) (g : AdaptiveKalmanFilter)
    (last lastO config : KalmanConfig)
    (angle1 angle2 openness trust : ℚ)
    (h1 : entry.filter1 = some f1) (h2 : entry.filter2 = some f2)
    (hl : entry.lastKalmanConfig = some last)
    (ho : oe.filter = some g) (hlo : oe.lastKalmanConfig = some lastO) :
    (KalmanFilterManager.angleReinitNeeded entry config = true ↔
      (config.measurementNoise ≠ last.measurementNoise ∨
       config.kalmanQLow ≠ last.kalmanQLow ∨
       config.kalmanQHigh ≠ last.kalmanQHigh ∨
       config.kalmanThreshold ≠ last.kalmanThreshold)) ∧
    (KalmanFilterManager.opennessReinitNeeded oe config = true ↔
      (config.measurementNoise ≠ lastO.measurementNoise ∨
       config.kalmanQLow ≠ lastO.kalmanQLow ∨
       config.kalmanQHigh ≠ lastO.kalmanQHigh ∨
       config.kalmanThreshold ≠ lastO.kalmanThreshold ∨
       config.kalmanThresholdOpenness ≠ lastO.kalmanThresholdOpenness)) ∧
    (KalmanFilterManager.angleReinitNeeded entry config = true →
      (KalmanFilterManager.filterTwoAnglesStep entry angle1 angle2 config
          trust).2 =
        { filter1 := some ((AdaptiveKalmanFilter.update
            ⟨angle1, 1, config.measurementNoise, config.kalmanQLow,
             config.kalmanQHigh, config.kalmanThreshold⟩ angle1 trust).2),
          filter2 := some ((AdaptiveKalmanFilter.update
            ⟨angle2, 1, config.measurementNoise, config.kalmanQLow,
             config.kalmanQHigh, config.kalmanThreshold⟩ angle2 trust).2),
          lastKalmanConfig := some config }) ∧
    (KalmanFilterManager.angleReinitNeeded entry config = false →
      (KalmanFilterManager.filterTwoAnglesStep entry angle1 angle2 config
          trust).2 =
        { entry with
          filter1 := some ((f1.update angle1 trust).2),
          filter2 := some ((f2.update angle2 trust).2) }) ∧
    (KalmanFilterManager.opennessReinitNeeded oe config = true →
      (KalmanFilterManager.filterOpennessStep oe openness config).2 =
        { filter := some ((AdaptiveKalmanFilter.update
            ⟨openness, 1, config.measurementNoise, config.kalmanQLow,
             config.kalmanQHigh, config.kalmanThresholdOpenness⟩
            openness 1).2),
          lastKalmanConfig := some config }) ∧
    (KalmanFilterManager.opennessReinitNeeded oe config = false →
      (KalmanFilterManager.filterOpennessStep oe openness config).2 =
        { oe with filter := some ((g.update openness 1).2) }) := by
  refine ⟨?_, ?_, ?_, ?_, ?_, ?_⟩
  · simp [KalmanFilterManager.angleReinitNeeded,
      KalmanFilterManager.angleConfigChanged, h1, h2, hl, or_assoc]
  · simp [KalmanFilterManager.opennessReinitNeeded,
      KalmanFilterManager.opennessConfigChanged, ho, hlo, or_assoc]
  · intro h
    simp [KalmanFilterManager.filterTwoAnglesStep, h]
  · intro h
    simp [KalmanFilterManager.filterTwoAnglesStep, h, h1, h2]
  · intro h
    simp [KalmanFilterManager.filterOpennessStep, h]
  · intro h
    simp [KalmanFilterManager.filterOpennessStep, h, ho]

/-- Witness for C6's amended theorem: a change in `kalmanQLow` alone makes
`angleReinitNeeded` report a reinitialization. -/
theorem kalmanFilterManager_reinit_spec_witness :
    KalmanFilterManager.angleReinitNeeded
      ⟨some ⟨0, 1, 1, 1, 2, 3⟩, some ⟨0, 1, 1, 1, 2, 3⟩, some ⟨1, 1, 2, 3, 4⟩⟩
      ⟨1, 7, 2, 3, 4⟩ = true :=
  (kalmanFilterManager_reinit_spec
    ⟨some ⟨0, 1, 1, 1, 2, 3⟩, some ⟨0, 1, 1, 1, 2, 3⟩, some ⟨1, 1, 2, 3, 4⟩⟩
    ⟨0, 1, 1, 1, 2, 3⟩ ⟨0, 1, 1, 1, 2, 3⟩
    ⟨some ⟨0, 1, 1, 1, 2, 3⟩, some ⟨1, 1, 2, 3, 4⟩⟩ ⟨0, 1, 1, 1, 2, 3⟩
    ⟨1, 1, 2, 3, 4⟩ ⟨1, 1, 2, 3, 4⟩ ⟨1, 7, 2, 3, 4⟩
    0 0 0 1 rfl rfl rfl rfl rfl).1.mpr
    (Or.inr (Or.inl (by norm_num)))

/-! ### Frame-processing gates of `runTracking`
(`src/services/trackingComputationService.ts`, both-eyes-online case) -/

/-- Model of `frame.trim() !== ''`: the frame string contains some
non-whitespace character (trimming leaves a non-empty string exactly
then). -/
def frameNonBlank (s : String) : Bool := s.data.any (fun c => !c.isWhitespace)

/-- The inputs the both-eyes-online gate of `runTracking` reads: the two
frames with their timestamps, `now`, the module-level
`previousLeft/RightTimestamp`, and the configuration. -/
structure BothOnlineGateInput where
  leftTimestamp : ℤ
  rightTimestamp : ℤ
  leftFrame : String
  rightFrame : String
  now : ℤ
  previousLeftTimestamp : ℤ
  previousRightTimestamp : ℤ
  trackingRate : ℤ
  syncedEyeUpdates : Bool
  deriving Repr

/-- Outcome of the gate: the `proceed`/`validLeft`/`validRight` flags and
the updated per-eye last-processed timestamps. -/
structure GateResult where
  proceed : Bool
  validLeft : Bool
  validRight : Bool
  previousLeftTimestamp : ℤ
  previousRightTimestamp : ℤ
  deriving Repr, DecidableEq

/-- The outer guard of the both-eyes-online branch:
timestamps exist (a JS timestamp of `0` is falsy), BOTH eyes' elapsed
times reach the tracking rate, BOTH frames are non-blank, and at least one
eye has a new timestamp. -/
def bothEyesSharedGate (i : BothOnlineGateInput) : Bool :=
  decide (i.leftTimestamp ≠ 0) && decide (i.rightTimestamp ≠ 0) &&
  (decide (i.now - i.previousLeftTimestamp ≥ i.trackingRate) &&
   decide (i.now - i.previousRightTimestamp ≥ i.trackingRate)) &&
  frameNonBlank i.leftFrame && frameNonBlank i.rightFrame &&
  (decide (i.leftTimestamp ≠ i.previousLeftTimestamp) ||
   decide (i.rightTimestamp ≠ i.previousRightTimestamp))

/-- The left eye's own freshness-and-interval gate. -/
def leftEyeGate (i : BothOnlineGateInput) : Bool :=
  decide (i.leftTimestamp ≠ i.previousLeftTimestamp) &&
  decide (i.now - i.previousLeftTimestamp ≥ i.trackingRate)

/-- The right eye's own freshness-and-interval gate. -/
def rightEyeGate (i : BothOnlineGateInput) : Bool :=
  decide (i.rightTimestamp ≠ i.previousRightTimestamp) &&
  decide (i.now - i.previousRightTimestamp ≥ i.trackingRate)

/-- Embedding of the both-eyes-online gate logic of `runTracking`. -/
def bothOnlineGate (i : BothOnlineGateInput) : GateResult :=
  if bothEyesSharedGate i then
    if i.syncedEyeUpdates then
      if leftEyeGate i && rightEyeGate i then
        { proceed := true, validLeft := true, validRight := true,
          previousLeftTimestamp := i.leftTimestamp,
          previousRightTimestamp := i.rightTimestamp }
      else
        { proceed := false, validLeft := false, validRight := false,
          previousLeftTimestamp := i.previousLeftTimestamp,
          previousRightTimestamp := i.previousRightTimestamp }
    else
      let afterLeft : GateResult :=
        if leftEyeGate i then
          { proceed := true, validLeft := true, validRight := true,
            previousLeftTimestamp := i.leftTimestamp,
            previousRightTimestamp := i.previousRightTimestamp }
        else
          { proceed := false, validLeft := false, validRight := false,
            previousLeftTimestamp := i.previousLeftTimestamp,
            previousRightTimestamp := i.previousRightTimestamp }
      if rightEyeGate i then
        { proceed := true, validLeft := true, validRight := true,
          previousLeftTimestamp := afterLeft.previousLeftTimestamp,
          previousRightTimestamp := i.rightTimestamp }
      else afterLeft
  else
    { proceed := false, validLeft := false, validRight := false,
      previousLeftTimestamp := i.previousLeftTimestamp,
      previousRightTimestamp := i.previousRightTimestamp }

/-- C7 (counterexample): unsynced mode, both eyes online; the left eye's
own gates all pass (fresh timestamp `10 ≠ 0`, elapsed `100 ≥ 50`,
non-blank frame) but the right eye's elapsed time (`40 < 50`) fails, and
the left eye is NOT processed: `proceed` is `false` and the left
last-processed timestamp is not consumed. -/
theorem unsyncedGate_counterexample :
    leftEyeGate ⟨10, 5, "x", "x", 100, 0, 60, 50, false⟩ = true ∧
    frameNonBlank "x" = true ∧
    (bothOnlineGate ⟨10, 5, "x", "x", 100, 0, 60, 50, false⟩).proceed =
      false ∧
    (bothOnlineGate
        ⟨10, 5, "x", "x", 100, 0, 60, 50, false⟩).previousLeftTimestamp =
      0 := by
  refine ⟨by decide, by decide, by decide, by decide⟩

/-- C7 (amended): in unsynced mode with both eyes online, an eye is
processed exactly when the SHARED outer gate passes — both timestamps
present, BOTH eyes' elapsed times at least the tracking interval, BOTH
frame buffers non-blank, and at least one fresh timestamp — together with
that eye's own freshness gate; the unsynced policy only relaxes the other
eye's freshness requirement, not its interval or frame-buffer
requirements. -/
theorem unsyncedGate_spec (i : BothOnlineGateInput)
    (hs : i.syncedEyeUpdates = false) :
    ((bothOnlineGate i).proceed =
      (bothEyesSharedGate i && (leftEyeGate i || rightEyeGate i))) ∧
    ((bothOnlineGate i).previousLeftTimestamp =
      if bothEyesSharedGate i && leftEyeGate i then i.leftTimestamp
      else i.previousLeftTimestamp) ∧
    ((bothOnlineGate i).previousRightTimestamp =
      if bothEyesSharedGate i && rightEyeGate i then i.rightTimestamp
      else i.previousRightTimestamp) := by
  cases hshared : bothEyesSharedGate i <;>
    cases hleft : leftEyeGate i <;>
      cases hright : rightEyeGate i <;>
        simp [bothOnlineGate, hshared, hleft, hright, hs]

/-- Witness for C7's amended theorem: with both shared and left gates
passing and a stale right eye, the left timestamp is consumed. -/
theorem unsyncedGate_spec_witness :
    (bothOnlineGate
        ⟨10, 5, "x", "x", 100, 0, 20, 50, false⟩).previousLeftTimestamp =
      10 := by
  rw [(unsyncedGate_spec ⟨10, 5, "x", "x", 100, 0, 20, 50, false⟩ rfl).2.1]
  decide

/-! ### NormalizationUtils (`src/main.tsx`) -/

/-- The four static extrema of `NormalizationUtils`. -/
structure NormalizationState where
  maxPosTheta1 : ℚ
  maxNegTheta1 : ℚ
  maxPosTheta2 : ℚ
  maxNegTheta2 : ℚ
  deriving Repr, DecidableEq

namespace NormalizationUtils

/-- Embedding of `NormalizationUtils.normalizeTheta1`: updates the
same-sign extremum, then divides by its magnitude (returning `0` when the
extremum is still `0`). -/
def normalizeTheta1 (s : NormalizationState) (deg : ℚ) :
    ℚ × NormalizationState :=
  if deg ≥ 0 then
    let s' := if deg > s.maxPosTheta1 then { s with maxPosTheta1 := deg }
      else s
    (if s'.maxPosTheta1 = 0 then 0 else deg / s'.maxPosTheta1, s')
  else
    let s' := if deg < s.maxNegTheta1 then { s with maxNegTheta1 := deg }
      else s
    (if s'.maxNegTheta1 = 0 then 0 else deg / |s'.maxNegTheta1|, s')

/-- Embedding of `NormalizationUtils.normalizeTheta2`. -/
def normalizeTheta2 (s : NormalizationState) (deg : ℚ) :
    ℚ × NormalizationState :=
  if deg ≥ 0 then
    let s' := if deg > s.maxPosTheta2 then { s with maxPosTheta2 := deg }
      else s
    (if s'.maxPosTheta2 = 0 then 0 else deg / s'.maxPosTheta2, s')
  else
    let s' := if deg < s.maxNegTheta2 then { s with maxNegTheta2 := deg }
      else s
    (if s'.maxNegTheta2 = 0 then 0 else deg / |s'.maxNegTheta2|, s')

/-- `NormalizationUtils.resetNormalization` zeroes all four extrema. -/
def resetNormalization : NormalizationState :=
  { maxPosTheta1 := 0, maxNegTheta1 := 0, maxPosTheta2 := 0,
    maxNegTheta2 := 0 }

end NormalizationUtils

/-- The model-reload prologue of `runTracking`:
`if (modelFile && modelFile !== currentModelFolder)
 NormalizationUtils.resetNormalization()`. -/
def modelReloadNormalization (modelFile currentModelFolder : String)
    (s : NormalizationState) : NormalizationState :=
  if modelFile ≠ "" ∧ modelFile ≠ currentModelFolder then
    NormalizationUtils.resetNormalization
  else s

/-- A value divided by the same-sign maximum magnitude lies in `[-1, 1]`:
shared bound argument for one normalization axis. -/
lemma normalizeAxis_bounds (m deg : ℚ) :
    (0 ≤ deg → -1 ≤ (if max m deg = 0 then 0 else deg / max m deg) ∧
      (if max m deg = 0 then 0 else deg / max m deg) ≤ 1) ∧
    (deg < 0 →
      -1 ≤ (if min m deg = 0 then 0 else deg / |min m deg|) ∧
      (if min m deg = 0 then 0 else deg / |min m deg|) ≤ 1) := by
  constructor
  · intro hdeg
    by_cases hz : max m deg = 0
    · simp [hz]
    · have hM : 0 < max m deg :=
        lt_of_le_of_ne (le_trans hdeg (le_max_right m deg)) (Ne.symm hz)
      have hle : deg ≤ max m deg := le_max_right m deg
      constructor
      · simp only [hz, if_false]
        have : (0:ℚ) ≤ deg / max m deg := div_nonneg hdeg (le_of_lt hM)
        linarith
      · simp only [hz, if_false]
        exact (div_le_one hM).mpr hle
  · intro hdeg
    have hm : min m deg ≤ deg := min_le_right m deg
    have hneg : min m deg < 0 := lt_of_le_of_lt hm hdeg
    have hz : min m deg ≠ 0 := ne_of_lt hneg
    have habs : |min m deg| = -(min m deg) := abs_of_neg hneg
    have hpos : 0 < |min m deg| := abs_pos.mpr hz
    constructor
    · simp only [hz, if_false]
      rw [le_div_iff hpos]
      nlinarith [habs, hm]
    · simp only [hz, if_false]
      have : deg / |min m deg| < 0 := div_neg_of_neg_of_pos hdeg hpos
      linarith

/-- C8: each `normalizeTheta` call first enlarges the stored same-sign
extremum when the input exceeds it, then returns the input divided by the
current same-sign maximum magnitude (both axes), the result always lies in
`[-1, 1]`, `resetNormalization` zeroes all four extrema, and the
model-reload prologue of `runTracking` invokes it on a model-generation
change. -/
theorem normalization_spec (s : NormalizationState) (deg : ℚ)
    (modelFile currentModelFolder : String) :
    (0 ≤ deg →
      (NormalizationUtils.normalizeTheta1 s deg).2.maxPosTheta1 =
        max s.maxPosTheta1 deg ∧
      (max s.maxPosTheta1 deg ≠ 0 →
        (NormalizationUtils.normalizeTheta1 s deg).1 =
          deg / max s.maxPosTheta1 deg)) ∧
    (deg < 0 →
      (NormalizationUtils.normalizeTheta1 s deg).2.maxNegTheta1 =
        min s.maxNegTheta1 deg ∧
      (NormalizationUtils.normalizeTheta1 s deg).1 =
        deg / |min s.maxNegTheta1 deg|) ∧
    (-1 ≤ (NormalizationUtils.normalizeTheta1 s deg).1 ∧
      (NormalizationUtils.normalizeTheta1 s deg).1 ≤ 1) ∧
    (0 ≤ deg →
      (NormalizationUtils.normalizeTheta2 s deg).2.maxPosTheta2 =
        max s.maxPosTheta2 deg ∧
      (max s.maxPosTheta2 deg ≠ 0 →
        (NormalizationUtils.normalizeTheta2 s deg).1 =
          deg / max s.maxPosTheta2 deg)) ∧
    (deg < 0 →
      (NormalizationUtils.normalizeTheta2 s deg).2.maxNegTheta2 =
        min s.maxNegTheta2 deg ∧
      (NormalizationUtils.normalizeTheta2 s deg).1 =
        deg / |min s.maxNegTheta2 deg|) ∧
    (-1 ≤ (NormalizationUtils.normalizeTheta2 s deg).1 ∧
      (NormalizationUtils.normalizeTheta2 s deg).1 ≤ 1) ∧
    (NormalizationUtils.resetNormalization = ⟨0, 0, 0, 0⟩) ∧
    (modelFile ≠ "" → modelFile ≠ currentModelFolder →
      modelReloadNormalization modelFile currentModelFolder s =
        ⟨0, 0, 0, 0⟩) := by
  have hmax1 : ∀ (m : ℚ),
      (if deg > m then deg else m) = max m deg := by
    intro m
    rcases lt_or_le m deg with h | h
    · simp [h, max_eq_right (le_of_lt h)]
    · simp [not_lt.mpr h, max_eq_left h]
  have hmin1 : ∀ (m : ℚ),
      (if deg < m then deg else m) = min m deg := by
    intro m
    rcases lt_or_le deg m with h | h
    · simp [h, min_eq_right (le_of_lt h)]
    · simp [not_lt.mpr h, min_eq_left h]
  refine ⟨?_, ?_, ?_, ?_, ?_, ?_, rfl, ?_⟩
  · intro hdeg
    unfold NormalizationUtils.normalizeTheta1
    rcases lt_or_le s.maxPosTheta1 deg with h | h
    · have hm : max s.maxPosTheta1 deg = deg := max_eq_right (le_of_lt h)
      refine ⟨by rw [hm]; simp [ge_iff_le, hdeg, h], ?_⟩
      intro hz
      rw [hm] at hz ⊢
      simp [ge_iff_le, hdeg, h, hz]
    · have hm : max s.maxPosTheta1 deg = s.maxPosTheta1 := max_eq_left h
      refine ⟨by rw [hm]; simp [ge_iff_le, hdeg, not_lt.mpr h], ?_⟩
      intro hz
      rw [hm] at hz ⊢
      simp [ge_iff_le, hdeg, not_lt.mpr h, hz]
  · intro hdeg
    unfold NormalizationUtils.normalizeTheta1
    have hns : ¬ deg ≥ 0 := not_le.mpr hdeg
    have hmin := hmin1 s.maxNegTheta1
    have hz : min s.maxNegTheta1 deg ≠ 0 :=
      ne_of_lt (lt_of_le_of_lt (min_le_right _ _) hdeg)
    rcases lt_or_le deg s.maxNegTheta1 with h | h
    · have : min s.maxNegTheta1 deg = deg := min_eq_right (le_of_lt h)
      simp [hns, h, this, ne_of_lt hdeg]
    · have : min s.maxNegTheta1 deg = s.maxNegTheta1 := min_eq_left h
      have hz' : s.maxNegTheta1 ≠ 0 := this ▸ hz
      simp [hns, not_lt.mpr h, this, hz']
  · unfold NormalizationUtils.normalizeTheta1
    by_cases hdeg : deg ≥ 0
    · have hb := (normalizeAxis_bounds s.maxPosTheta1 deg).1 hdeg
      rcases lt_or_le s.maxPosTheta1 deg with h | h
      · have hm : max s.maxPosTheta1 deg = deg := max_eq_right (le_of_lt h)
        rw [hm] at hb
        simpa [ge_iff_le, hdeg, h] using hb
      · have hm : max s.maxPosTheta1 deg = s.maxPosTheta1 := max_eq_left h
        rw [hm] at hb
        simpa [ge_iff_le, hdeg, not_lt.mpr h] using hb
    · have hdeg' : deg < 0 := not_le.mp hdeg
      have hb := (normalizeAxis_bounds s.maxNegTheta1 deg).2 hdeg'
      rcases lt_or_le deg s.maxNegTheta1 with h | h
      · have hm : min s.maxNegTheta1 deg = deg := min_eq_right (le_of_lt h)
        rw [hm] at hb
        simpa [hdeg, h] using hb
      · have hm : min s.maxNegTheta1 deg = s.maxNegTheta1 := min_eq_left h
        rw [hm] at hb
        simpa [hdeg, not_lt.mpr h] using hb
  · intro hdeg
    unfold NormalizationUtils.normalizeTheta2
    rcases lt_or_le s.maxPosTheta2 deg with h | h
    · have hm : max s.maxPosTheta2 deg = deg := max_eq_right (le_of_lt h)
      refine ⟨by rw [hm]; simp [ge_iff_le, hdeg, h], ?_⟩
      intro hz
      rw [hm] at hz ⊢
      simp [ge_iff_le, hdeg, h, hz]
    · have hm : max s.maxPosTheta2 deg = s.maxPosTheta2 := max_eq_left h
      refine ⟨by rw [hm]; simp [ge_iff_le, hdeg, not_lt.mpr h], ?_⟩
      intro hz
      rw [hm] at hz ⊢
      simp [ge_iff_le, hdeg, not_lt.mpr h, hz]
  · intro hdeg
    unfold NormalizationUtils.normalizeTheta2
    have hns : ¬ deg ≥ 0 := not_le.mpr hdeg
    have hz : min s.maxNegTheta2 deg ≠ 0 :=
      ne_of_lt (lt_of_le_of_lt (min_le_right _ _) hdeg)
    rcases lt_or_le deg s.maxNegTheta2 with h | h
    · have : min s.maxNegTheta2 deg = deg := min_eq_right (le_of_lt h)
      simp [hns, h, this, ne_of_lt hdeg]
    · have : min s.maxNegTheta2 deg = s.maxNegTheta2 := min_eq_left h
      have hz' : s.maxNegTheta2 ≠ 0 := this ▸ hz
      simp [hns, not_lt.mpr h, this, hz']
  · unfold NormalizationUtils.normalizeTheta2
    by_cases hdeg : deg ≥ 0
    · have hb := (normalizeAxis_bounds s.maxPosTheta2 deg).1 hdeg
      rcases lt_or_le s.maxPosTheta2 deg with h | h
      · have hm : max s.maxPosTheta2 deg = deg := max_eq_right (le_of_lt h)
        rw [hm] at hb
        simpa [ge_iff_le, hdeg, h] using hb
      · have hm : max s.maxPosTheta2 deg = s.maxPosTheta2 := max_eq_left h
        rw [hm] at hb
        simpa [ge_iff_le, hdeg, not_lt.mpr h] using hb
    · have hdeg' : deg < 0 := not_le.mp hdeg
      have hb := (normalizeAxis_bounds s.maxNegTheta2 deg).2 hdeg'
      rcases lt_or_le deg s.maxNegTheta2 with h | h
      · have hm : min s.maxNegTheta2 deg = deg := min_eq_right (le_of_lt h)
        rw [hm] at hb
        simpa [hdeg, h] using hb
      · have hm : min s.maxNegTheta2 deg = s.maxNegTheta2 := min_eq_left h
        rw [hm] at hb
        simpa [hdeg, not_lt.mpr h] using hb
  · intro h1 h2
    simp [modelReloadNormalization, h1, h2,
      NormalizationUtils.resetNormalization]

/-- Witness for C8: from the zero state, normalizing `5` stores `5` as the
positive extremum and returns `5 / max 0 5`. -/
theorem normalization_spec_witness :
    (NormalizationUtils.normalizeTheta1 ⟨0, 0, 0, 0⟩ 5).2.maxPosTheta1 =
      max 0 5 ∧
    (NormalizationUtils.normalizeTheta1 ⟨0, 0, 0, 0⟩ 5).1 = 5 / max 0 5 :=
  ⟨((normalization_spec ⟨0, 0, 0, 0⟩ 5 "a" "b").1 (by norm_num)).1,
   ((normalization_spec ⟨0, 0, 0, 0⟩ 5 "a" "b").1 (by norm_num)).2
     (by norm_num)⟩

/-! ### Camera reconnect backoff
(`connectWithReattempt`, `src/services/cameraService.ts`)

`onError` schedules a timer 2000 ms ahead; when the timer fires it
re-attempts the connection only under the guard below.  `close()` sets the
handle's `closed` flag, and both the timer callback and
`attemptConnection` re-check that flag. -/

/-- The facts the timer callback reads when it fires: the handle's `closed`
flag, the service-wide `shuttingDown` flag, the endpoint currently
configured for the eye, and the eye's forced-offline flag. -/
structure CameraLinkState where
  closed : Bool
  shuttingDown : Bool
  configEndpoint : String
  forcedOffline : Bool
  deriving Repr, DecidableEq

/-- The `setTimeout` delay of the reconnect backoff, in milliseconds. -/
def RECONNECT_BACKOFF_MS : ℤ := 2000

/-- The time at which the reconnect timer scheduled by `onError` fires. -/
def reconnectFireTime (errorTime : ℤ) : ℤ := errorTime + RECONNECT_BACKOFF_MS

/-- The guard of the timer callback: `!closed && !shuttingDown &&
currentConfig[side] === ipPort && !forcedOffline`, where `ipPort` is the
endpoint the connection was opened with.  `attemptConnection` only runs
(and can only open a new connection) when this returns `true`. -/
def reconnectTimerGuard (ipPort : String) (s : CameraLinkState) : Bool :=
  !s.closed && !s.shuttingDown && (s.configEndpoint == ipPort) &&
  !s.forcedOffline

/-- `close()` on the returned handle: sets the `closed` flag. -/
def closeCameraLink (s : CameraLinkState) : CameraLinkState :=
  { s with closed := true }

/-- C9: the reconnect timer fires exactly 2000 ms after the error; a
reconnect attempt happens iff, at that moment, the handle is not closed,
the service is not shutting down, the configured endpoint still equals the
endpoint the connection was opened with, and the eye is not forced
offline; and after `close()` the guard always fails, so a `close()` inside
the backoff window prevents the pending reconnect. -/
theorem cameraReconnect_spec (ipPort : String) (s : CameraLinkState)
    (errorTime : ℤ) :
    (reconnectFireTime errorTime = errorTime + 2000) ∧
    (reconnectTimerGuard ipPort s = true ↔
      (s.closed = false ∧ s.shuttingDown = false ∧
       s.configEndpoint = ipPort ∧ s.forcedOffline = false)) ∧
    (reconnectTimerGuard ipPort (closeCameraLink s) = false) := by
  refine ⟨rfl, ?_, ?_⟩
  · constructor
    · intro h
      simp only [reconnectTimerGuard, Bool.and_eq_true, Bool.not_eq_true',
        beq_iff_eq] at h
      exact ⟨h.1.1.1, h.1.1.2, h.1.2, h.2⟩
    · rintro ⟨h1, h2, h3, h4⟩
      simp [reconnectTimerGuard, h1, h2, h3, h4]
  · simp [reconnectTimerGuard, closeCameraLink]

/-- Witness for C9: a handle closed during the backoff window is not
reconnected even though endpoint and flags would allow it. -/
theorem cameraReconnect_spec_witness :
    reconnectTimerGuard "192.168.0.2:80"
      (closeCameraLink ⟨false, false, "192.168.0.2:80", false⟩) = false :=
  (cameraReconnect_spec "192.168.0.2:80"
    ⟨false, false, "192.168.0.2:80", false⟩ 0).2.2

end EyeTracking
